import Mathlib

/-!
Verification of the sftpplease SFTP v3 server.

This file is a shallow embedding, in Lean 4, of the core of the
sftpplease repository: the protosftp wire codec (packet framing,
request parsing, FileStat attribute marshalling), the session engine
(dispatcher, handle table, per-handle worker loops, error mapping) and
the read-only VFS wrapper.  Bytes are modelled as natural numbers,
wire strings as lists of bytes, machine integers as Nat with explicit
truncation where the Go code truncates.  Fallible Go code is modelled
with Except.  Each definition is translated from the corresponding Go
function and keeps its name where Lean allows it.
-/

namespace Protosftp

/-! Packet type tags, status codes, open flags and attribute flag bits,
from protosftp (fxp.go constants). -/

def FXP_INIT : Nat := 1
def FXP_VERSION : Nat := 2
def FXP_OPEN : Nat := 3
def FXP_CLOSE : Nat := 4
def FXP_READ : Nat := 5
def FXP_WRITE : Nat := 6
def FXP_LSTAT : Nat := 7
def FXP_FSTAT : Nat := 8
def FXP_SETSTAT : Nat := 9
def FXP_FSETSTAT : Nat := 10
def FXP_OPENDIR : Nat := 11
def FXP_READDIR : Nat := 12
def FXP_REMOVE : Nat := 13
def FXP_MKDIR : Nat := 14
def FXP_RMDIR : Nat := 15
def FXP_REALPATH : Nat := 16
def FXP_STAT : Nat := 17
def FXP_RENAME : Nat := 18
def FXP_READLINK : Nat := 19
def FXP_SYMLINK : Nat := 20

def FX_OK : Nat := 0
def FX_EOF : Nat := 1
def FX_NO_SUCH_FILE : Nat := 2
def FX_PERMISSION_DENIED : Nat := 3
def FX_FAILURE : Nat := 4
def FX_OP_UNSUPPORTED : Nat := 8

def FXF_READ : Nat := 0x00000001
def FXF_WRITE : Nat := 0x00000002
def FXF_APPEND : Nat := 0x00000004
def FXF_CREAT : Nat := 0x00000008
def FXF_TRUNC : Nat := 0x00000010
def FXF_EXCL : Nat := 0x00000020

def FILEXFER_ATTR_SIZE : Nat := 0x00000001
def FILEXFER_ATTR_UIDGID : Nat := 0x00000002
def FILEXFER_ATTR_PERMISSIONS : Nat := 0x00000004
def FILEXFER_ATTR_ACMODTIME : Nat := 0x00000008

def S_IFDIR : Nat := 0o040000
def S_IFREG : Nat := 0o100000

/-- FileStat, the v3 attribute record (protosftp).  Field order as in
the Go struct; Extended is carried but, exactly as in the Go code,
never touched by marshalFileStat or unmarshalFileStatSafe. -/
structure FileStat where
  flags : Nat
  size : Nat
  mode : Nat
  mtime : Nat
  atime : Nat
  uid : Nat
  gid : Nat
  extended : List (List Nat × List Nat)
  deriving Repr, DecidableEq

/-- The zero value of FileStat, as produced by a fresh Go struct. -/
def emptyFileStat : FileStat := ⟨0, 0, 0, 0, 0, 0, 0, []⟩

/-- marshalUint32: append the big-endian bytes of a u32.  byte(x) in Go
truncates mod 256. -/
def marshalUint32 (b : List Nat) (v : Nat) : List Nat :=
  b ++ [(v >>> 24) % 256, (v >>> 16) % 256, (v >>> 8) % 256, v % 256]

/-- marshalUint64: the high u32 then the low u32, as in the Go code
(uint32 conversion truncates mod 2^32). -/
def marshalUint64 (b : List Nat) (v : Nat) : List Nat :=
  marshalUint32 (marshalUint32 b ((v >>> 32) % 4294967296)) (v % 4294967296)

/-- marshalString: u32 length prefix then the raw bytes. -/
def marshalString (b : List Nat) (v : List Nat) : List Nat :=
  marshalUint32 b v.length ++ v

/-- unmarshalUint32 on at least four bytes (the Go function indexes
b[0..3] unconditionally; every call site is guarded, the fallback
branch here is unreachable in guarded use). -/
def unmarshalUint32 : List Nat → Nat × List Nat
  | b0 :: b1 :: b2 :: b3 :: rest =>
    (b3 + b2 * 256 + b1 * 65536 + b0 * 16777216, rest)
  | b => (0, b)

/-- unmarshalUint32Safe: length check then unmarshalUint32; the error
is errShortPacket ("packet too short"). -/
def unmarshalUint32Safe (b : List Nat) : Except String (Nat × List Nat) :=
  if b.length < 4 then .error "packet too short"
  else .ok (unmarshalUint32 b)

/-- unmarshalUint64: two u32 reads, high word first. -/
def unmarshalUint64 (b : List Nat) : Nat × List Nat :=
  let (h, b) := unmarshalUint32 b
  let (l, b) := unmarshalUint32 b
  (h * 4294967296 + l, b)

/-- unmarshalUint64Safe: length check then unmarshalUint64. -/
def unmarshalUint64Safe (b : List Nat) : Except String (Nat × List Nat) :=
  if b.length < 8 then .error "packet too short"
  else .ok (unmarshalUint64 b)

/-- unmarshalStringSafe: u32 length prefix, bounds check, raw bytes. -/
def unmarshalStringSafe (b : List Nat) : Except String (List Nat × List Nat) :=
  match unmarshalUint32Safe b with
  | .error e => .error e
  | .ok (n, b) =>
    if n > b.length then .error "packet too short"
    else .ok (b.take n, b.drop n)

/-- marshalFileStat: flags word, then exactly the fields whose bit is
set, in the order size, (uid,gid), mode, (atime,mtime). -/
def marshalFileStat (b : List Nat) (stat : FileStat) : List Nat :=
  let b := marshalUint32 b stat.flags
  let b := if stat.flags &&& FILEXFER_ATTR_SIZE ≠ 0 then marshalUint64 b stat.size else b
  let b := if stat.flags &&& FILEXFER_ATTR_UIDGID ≠ 0 then
      marshalUint32 (marshalUint32 b stat.uid) stat.gid
    else b
  let b := if stat.flags &&& FILEXFER_ATTR_PERMISSIONS ≠ 0 then marshalUint32 b stat.mode else b
  let b := if stat.flags &&& FILEXFER_ATTR_ACMODTIME ≠ 0 then
      marshalUint32 (marshalUint32 b stat.atime) stat.mtime
    else b
  b

/-- unmarshalFileStatSafe, translated exactly from the Go function:
it reads the flags word and then the UIDGID, PERMISSIONS and
ACMODTIME groups when their bits are set.  Note: faithful to the
source, it has no branch for FILEXFER_ATTR_SIZE, so a size field on
the wire is neither stored nor consumed.  The Go function fills a
pointer to a fresh zero struct, modelled by starting from
emptyFileStat. -/
def unmarshalFileStatSafe (b : List Nat) : Except String (FileStat × List Nat) := do
  let (flags, b) ← unmarshalUint32Safe b
  let stat := { emptyFileStat with flags := flags }
  let (stat, b) ←
    if flags &&& FILEXFER_ATTR_UIDGID ≠ 0 then do
      let (uid, b) ← unmarshalUint32Safe b
      let (gid, b) ← unmarshalUint32Safe b
      pure ({ stat with uid := uid, gid := gid }, b)
    else pure (stat, b)
  let (stat, b) ←
    if flags &&& FILEXFER_ATTR_PERMISSIONS ≠ 0 then do
      let (mode, b) ← unmarshalUint32Safe b
      pure ({ stat with mode := mode }, b)
    else pure (stat, b)
  let (stat, b) ←
    if flags &&& FILEXFER_ATTR_ACMODTIME ≠ 0 then do
      let (atime, b) ← unmarshalUint32Safe b
      let (mtime, b) ← unmarshalUint32Safe b
      pure ({ stat with atime := atime, mtime := mtime }, b)
    else pure (stat, b)
  pure (stat, b)

/-- The decoded request packets, one constructor per packet type the
server decodes in ReadPacket.  Wire strings (paths, handles, data) are
byte lists. -/
inductive Request where
  | init (version : Nat) (extensions : List (List Nat × List Nat))
  | openR (id : Nat) (path : List Nat) (pflags : Nat) (attrs : FileStat)
  | close (id : Nat) (handle : List Nat)
  | readR (id : Nat) (handle : List Nat) (offset : Nat) (len : Nat)
  | writeR (id : Nat) (handle : List Nat) (offset : Nat) (data : List Nat)
  | lstat (id : Nat) (path : List Nat)
  | fstat (id : Nat) (handle : List Nat)
  | setstat (id : Nat) (path : List Nat) (attrs : FileStat)
  | fsetstat (id : Nat) (handle : List Nat) (attrs : FileStat)
  | opendir (id : Nat) (path : List Nat)
  | readdir (id : Nat) (handle : List Nat)
  | removeR (id : Nat) (filename : List Nat)
  | mkdir (id : Nat) (path : List Nat) (attrs : FileStat)
  | rmdir (id : Nat) (path : List Nat)
  | realpath (id : Nat) (path : List Nat)
  | statR (id : Nat) (path : List Nat)
  | rename (id : Nat) (oldpath newpath : List Nat)
  | readlink (id : Nat) (path : List Nat)
  | symlink (id : Nat) (targetpath linkpath : List Nat)
  deriving Repr, DecidableEq

/-- unmarshalExtensionPair: two length-prefixed strings. -/
def unmarshalExtensionPair (b : List Nat) :
    Except String ((List Nat × List Nat) × List Nat) := do
  let (name, b) ← unmarshalStringSafe b
  let (data, b) ← unmarshalStringSafe b
  pure ((name, data), b)

/-- The extension-pair loop of FxpInitPacket.UnmarshalBinary.  The Go
loop runs while bytes remain; every successful iteration consumes at
least eight bytes, so fuel equal to the byte count never runs out and
the fuel-exhausted branch is unreachable. -/
def parseExtensionPairs : Nat → List Nat → Except String (List (List Nat × List Nat))
  | _, [] => .ok []
  | 0, _ :: _ => .error "packet too short"
  | fuel + 1, b => do
    let (ep, b) ← unmarshalExtensionPair b
    let rest ← parseExtensionPairs fuel b
    pure (ep :: rest)

/-- unmarshalIDString: a u32 id then one length-prefixed string. -/
def unmarshalIDString (b : List Nat) : Except String (Nat × List Nat) := do
  let (id, b) ← unmarshalUint32Safe b
  let (s, _) ← unmarshalStringSafe b
  pure (id, s)

/-- The body parse of each packet ReadPacket constructs, translated
from the respective UnmarshalBinary methods; b is the body after the
leading tag byte. -/
def parsePacketBody (tag : Nat) (b : List Nat) : Except String Request :=
  if tag = FXP_INIT then do
    let (version, b) ← unmarshalUint32Safe b
    let exts ← parseExtensionPairs b.length b
    pure (.init version exts)
  else if tag = FXP_LSTAT then do
    let (id, s) ← unmarshalIDString b
    pure (.lstat id s)
  else if tag = FXP_OPEN then do
    let (id, b) ← unmarshalUint32Safe b
    let (path, b) ← unmarshalStringSafe b
    let (pflags, b) ← unmarshalUint32Safe b
    let (attrs, _) ← unmarshalFileStatSafe b
    pure (.openR id path pflags attrs)
  else if tag = FXP_CLOSE then do
    let (id, s) ← unmarshalIDString b
    pure (.close id s)
  else if tag = FXP_READ then do
    let (id, b) ← unmarshalUint32Safe b
    let (handle, b) ← unmarshalStringSafe b
    let (offset, b) ← unmarshalUint64Safe b
    let (len, _) ← unmarshalUint32Safe b
    pure (.readR id handle offset len)
  else if tag = FXP_WRITE then do
    let (id, b) ← unmarshalUint32Safe b
    let (handle, b) ← unmarshalStringSafe b
    let (offset, b) ← unmarshalUint64Safe b
    let (length, b) ← unmarshalUint32Safe b
    if b.length < length then .error "packet too short"
    else pure (.writeR id handle offset (b.take length))
  else if tag = FXP_FSTAT then do
    let (id, s) ← unmarshalIDString b
    pure (.fstat id s)
  else if tag = FXP_SETSTAT then do
    let (id, b) ← unmarshalUint32Safe b
    let (path, b) ← unmarshalStringSafe b
    let (attrs, _) ← unmarshalFileStatSafe b
    pure (.setstat id path attrs)
  else if tag = FXP_FSETSTAT then do
    let (id, b) ← unmarshalUint32Safe b
    let (handle, b) ← unmarshalStringSafe b
    let (attrs, _) ← unmarshalFileStatSafe b
    pure (.fsetstat id handle attrs)
  else if tag = FXP_OPENDIR then do
    let (id, s) ← unmarshalIDString b
    pure (.opendir id s)
  else if tag = FXP_READDIR then do
    let (id, s) ← unmarshalIDString b
    pure (.readdir id s)
  else if tag = FXP_REMOVE then do
    let (id, s) ← unmarshalIDString b
    pure (.removeR id s)
  else if tag = FXP_MKDIR then do
    let (id, b) ← unmarshalUint32Safe b
    let (path, b) ← unmarshalStringSafe b
    let (attrs, _) ← unmarshalFileStatSafe b
    pure (.mkdir id path attrs)
  else if tag = FXP_RMDIR then do
    let (id, s) ← unmarshalIDString b
    pure (.rmdir id s)
  else if tag = FXP_REALPATH then do
    let (id, s) ← unmarshalIDString b
    pure (.realpath id s)
  else if tag = FXP_STAT then do
    let (id, s) ← unmarshalIDString b
    pure (.statR id s)
  else if tag = FXP_RENAME then do
    let (id, b) ← unmarshalUint32Safe b
    let (oldpath, b) ← unmarshalStringSafe b
    let (newpath, _) ← unmarshalStringSafe b
    pure (.rename id oldpath newpath)
  else if tag = FXP_READLINK then do
    let (id, s) ← unmarshalIDString b
    pure (.readlink id s)
  else if tag = FXP_SYMLINK then do
    let (id, b) ← unmarshalUint32Safe b
    let (targetpath, b) ← unmarshalStringSafe b
    let (linkpath, _) ← unmarshalStringSafe b
    pure (.symlink id targetpath linkpath)
  else .error "unhandled packet type"

/-- ReadPacket: read the four-byte big-endian length, reject lengths
above 1 MiB or below 2, read the body, and parse it by its leading
tag byte.  Input is the byte stream; the unconsumed stream is
returned beside the request.  A short stream is the io.ReadFull EOF
error. -/
def ReadPacket (input : List Nat) : Except String (Request × List Nat) :=
  match input with
  | b0 :: b1 :: b2 :: b3 :: rest =>
    let l := b3 + b2 * 256 + b1 * 65536 + b0 * 16777216
    if l > 1048576 then .error "packet too large"
    else if l ≤ 1 then .error "packet too small"
    else if rest.length < l then .error "EOF"
    else
      let body := rest.take l
      match body with
      | [] => .error "packet too small"
      | tag :: rb =>
        match parsePacketBody tag rb with
        | .error e => .error e
        | .ok p => .ok (p, rest.drop l)
  | _ => .error "EOF"

/-- The reader goroutine of Serve: decode packets one after the other
and forward each to the inbox; on the first decode error it breaks
out and triggers shutdown, so no later bytes ever yield a request.
The result is the request sequence forwarded to the dispatcher. -/
def readerRun (input : List Nat) : List Request :=
  match h : ReadPacket input with
  | .error _ => []
  | .ok (p, rest) => p :: readerRun rest
termination_by input.length
decreasing_by
  simp only [ReadPacket] at h
  split at h
  case _ b0 b1 b2 b3 rest0 =>
    split at h
    · exact absurd h (by simp)
    · split at h
      · exact absurd h (by simp)
      · split at h
        · exact absurd h (by simp)
        · split at h
          · exact absurd h (by simp)
          · split at h
            · exact absurd h (by simp)
            · simp only [Except.ok.injEq, Prod.mk.injEq] at h
              obtain ⟨-, h2⟩ := h
              subst h2
              simp only [List.length_cons, List.length_drop]
              omega
  case _ => exact absurd h (by simp)

end Protosftp

namespace Sftp

open Protosftp

/-- The error identities the session distinguishes in respondError:
io.EOF, os.ErrNotExist, permission errors, and the package sentinels
ErrUnsupported, ErrBadRead, ErrInvalidHandle, ErrTooManyOpenFiles;
every other backend error is `other`.  Go compares sentinel errors by
identity, so an `other` error is distinct from every sentinel no
matter its message. -/
inductive VfsError where
  | eof
  | notExist
  | permission
  | unsupported
  | badRead
  | invalidHandle
  | tooManyOpenFiles
  | other (msg : String)
  deriving Repr, DecidableEq

/-- The response packets the session emits (only response tags are
encoded by this server).  Status messages are the server-side string
literals; wire strings are byte lists. -/
inductive OutPacket where
  | version (v : Nat) (extensions : List (List Nat × List Nat))
  | status (id : Nat) (code : Nat) (msg : String) (lang : String)
  | handleP (id : Nat) (handle : List Nat)
  | dataP (id : Nat) (length : Nat) (data : List Nat)
  | nameP (id : Nat) (entries : List (List Nat × List Nat × FileStat))
  | attrsP (id : Nat) (info : FileStat)
  deriving Repr, DecidableEq

/-- MakeStatus from protosftp: a status packet with empty language. -/
def MakeStatus (id : Nat) (msg : String) (code : Nat) : OutPacket :=
  .status id code msg ""

/-- respondError from session.go: EOF, not-exist, permission and the
unsupported sentinel are mapped to their codes with the error message;
everything else (including the bad-read, invalid-handle and
too-many-open-files sentinels) falls through to FX_FAILURE with the
literal message "error". -/
def respondError (respId : Nat) (err : VfsError) : OutPacket :=
  match err with
  | .eof => MakeStatus respId "EOF" FX_EOF
  | .notExist => MakeStatus respId "file does not exist" FX_NO_SUCH_FILE
  | .permission => MakeStatus respId "permission denied" FX_PERMISSION_DENIED
  | .unsupported => MakeStatus respId "unsupported operation" FX_OP_UNSUPPORTED
  | _ => MakeStatus respId "error" FX_FAILURE

/-- respondOk from session.go. -/
def respondOk (respId : Nat) : OutPacket :=
  MakeStatus respId "" FX_OK

/-- os.FileInfo as the session consumes it. -/
structure FileInfo where
  name : List Nat
  size : Nat
  mode : Nat
  modtime : Nat
  isDir : Bool
  deriving Repr, DecidableEq

/-- fileStatToSFTPStat from session.go: flags SIZE, PERMISSIONS and
ACMODTIME; mode is the lower nine permission bits plus the regular or
directory type bit; atime and mtime are the modification time as u32. -/
def fileStatToSFTPStat (stat : FileInfo) : FileStat :=
  let mode := (stat.mode &&& 0o777) ||| (if stat.isDir then S_IFDIR else S_IFREG)
  { emptyFileStat with
    flags := FILEXFER_ATTR_SIZE ||| FILEXFER_ATTR_PERMISSIONS ||| FILEXFER_ATTR_ACMODTIME
    size := stat.size
    atime := stat.modtime % 4294967296
    mtime := stat.modtime % 4294967296
    mode := mode }

/-- One backend invocation, for tracking which VFS and file methods a
request causes. -/
inductive BCall where
  | chmod (path : List Nat) (mode : Nat)
  | openV (path : List Nat)
  | openFile (path : List Nat) (flags : Nat) (mode : Nat)
  | mkdir (path : List Nat) (mode : Nat)
  | statP (path : List Nat)
  | rename (oldpath newpath : List Nat)
  | remove (path : List Nat)
  | fileStat
  | readF (n : Nat)
  | readAt (len : Nat) (offset : Nat)
  | writeAt (data : List Nat) (offset : Nat)
  | readdir (n : Nat)
  | fileChmod (mode : Nat)
  | closeF
  deriving Repr, DecidableEq

/-- A vfs.File capability: each method yields its result together with
the backend calls it makes (so that a wrapper that does not touch the
wrapped file yields an empty call list). -/
structure FileModel where
  fname : List Nat
  statOp : Except VfsError FileInfo × List BCall
  readOp : Nat → (List Nat × Option VfsError) × List BCall
  readAtOp : Nat → Nat → (List Nat × Option VfsError) × List BCall
  writeAtOp : List Nat → Nat → Except VfsError Nat × List BCall
  readdirOp : Nat → Except VfsError (List FileInfo) × List BCall
  chmodOp : Nat → Except VfsError Unit × List BCall
  closeOp : Except VfsError Unit × List BCall

/-- A vfs.VFS capability, with the same call-tracking convention. -/
structure VFSModel where
  chmodOp : List Nat → Nat → Except VfsError Unit × List BCall
  openOp : List Nat → Except VfsError FileModel × List BCall
  openFileOp : List Nat → Nat → Nat → Except VfsError FileModel × List BCall
  mkdirOp : List Nat → Nat → Except VfsError Unit × List BCall
  statOp : List Nat → Except VfsError FileInfo × List BCall
  renameOp : List Nat → List Nat → Except VfsError Unit × List BCall
  removeOp : List Nat → Except VfsError Unit × List BCall

/-- Pure result oracles for a backend file; readAtR models ReadAt
writing its returned bytes into the front of the supplied buffer. -/
structure FileResults where
  fname : List Nat
  statR : Except VfsError FileInfo
  readR : Nat → List Nat × Option VfsError
  readAtR : Nat → Nat → List Nat × Option VfsError
  writeAtR : List Nat → Nat → Except VfsError Nat
  readdirR : Nat → Except VfsError (List FileInfo)
  chmodR : Nat → Except VfsError Unit
  closeR : Except VfsError Unit

/-- A base backend file: every method performs exactly its own call. -/
def traceFile (f : FileResults) : FileModel where
  fname := f.fname
  statOp := (f.statR, [.fileStat])
  readOp := fun n => (f.readR n, [.readF n])
  readAtOp := fun len off => (f.readAtR len off, [.readAt len off])
  writeAtOp := fun data off => (f.writeAtR data off, [.writeAt data off])
  readdirOp := fun n => (f.readdirR n, [.readdir n])
  chmodOp := fun m => (f.chmodR m, [.fileChmod m])
  closeOp := (f.closeR, [.closeF])

/-- Pure result oracles for a backend VFS. -/
structure FsResults where
  chmodR : List Nat → Nat → Except VfsError Unit
  openFs : List Nat → Except VfsError FileResults
  openFileFs : List Nat → Nat → Nat → Except VfsError FileResults
  mkdirR : List Nat → Nat → Except VfsError Unit
  statFs : List Nat → Except VfsError FileInfo
  renameR : List Nat → List Nat → Except VfsError Unit
  removeFs : List Nat → Except VfsError Unit

/-- A base backend VFS: every method performs exactly its own call. -/
def traceVFS (fs : FsResults) : VFSModel where
  chmodOp := fun p m => (fs.chmodR p m, [.chmod p m])
  openOp := fun p => ((fs.openFs p).map traceFile, [.openV p])
  openFileOp := fun p fl m => ((fs.openFileFs p fl m).map traceFile, [.openFile p fl m])
  mkdirOp := fun p m => (fs.mkdirR p m, [.mkdir p m])
  statOp := fun p => (fs.statFs p, [.statP p])
  renameOp := fun a b => (fs.renameR a b, [.rename a b])
  removeOp := fun p => (fs.removeFs p, [.remove p])

/-! Go os package open-flag constants (linux values), as used by the
session flag translation and the read-only wrapper. -/

def O_RDONLY : Nat := 0x0
def O_WRONLY : Nat := 0x1
def O_RDWR : Nat := 0x2
def O_APPEND : Nat := 0x400
def O_CREATE : Nat := 0x40
def O_EXCL : Nat := 0x80
def O_TRUNC : Nat := 0x200

/-- The write-attempt test of ReadOnlyVFS.OpenFile, translated from
the nested conditionals of the Go code. -/
def writeAttempt (flag : Nat) : Bool :=
  if flag &&& O_WRONLY = 0 then
    if flag &&& O_RDWR = 0 then
      if flag &&& 3 = O_RDONLY then
        if flag &&& (O_CREATE ||| O_TRUNC ||| O_APPEND) = 0 then
          false
        else true
      else true
    else true
  else true

/-- ReadOnlyFile: Write, WriteAt and Chmod return os.ErrPermission
without touching the wrapped file; Name, Stat, Read, ReadAt, Readdir
and Close pass through. -/
def ReadOnlyFile (f : FileModel) : FileModel where
  fname := f.fname
  statOp := f.statOp
  readOp := f.readOp
  readAtOp := f.readAtOp
  writeAtOp := fun _ _ => (.error .permission, [])
  readdirOp := f.readdirOp
  chmodOp := fun _ => (.error .permission, [])
  closeOp := f.closeOp

/-- ReadOnlyVFS: Chmod, Mkdir, Rename and Remove return
os.ErrPermission without touching the wrapped VFS; OpenFile does so
for any flags that attempt a write; Open and Stat pass through,
wrapping the opened file read-only. -/
def ReadOnlyVFS (fs : VFSModel) : VFSModel where
  chmodOp := fun _ _ => (.error .permission, [])
  openOp := fun p =>
    match fs.openOp p with
    | (.ok f, cs) => (.ok (ReadOnlyFile f), cs)
    | (.error e, cs) => (.error e, cs)
  openFileOp := fun name flag perm =>
    if writeAttempt flag then (.error .permission, [])
    else
      match fs.openFileOp name flag perm with
      | (.ok f, cs) => (.ok (ReadOnlyFile f), cs)
      | (.error e, cs) => (.error e, cs)
  mkdirOp := fun _ _ => (.error .permission, [])
  statOp := fs.statOp
  renameOp := fun _ _ => (.error .permission, [])
  removeOp := fun _ => (.error .permission, [])

/-- Little-endian base-10 digits of n, by structural recursion with a
fuel argument kept at least n (the fuel-exhausted branch is
unreachable). -/
def decDigitsAux : Nat → Nat → List Nat
  | _, 0 => []
  | 0, _ + 1 => []
  | fuel + 1, n + 1 => (n + 1) % 10 :: decDigitsAux fuel ((n + 1) / 10)

/-- The ASCII bytes of the decimal representation of n, as produced by
the Go format verb for a nonnegative integer: the handle id string of
newFileHandle. -/
def decimalBytes (n : Nat) : List Nat :=
  if n = 0 then [48] else ((decDigitsAux n n).map (fun d => 48 + d)).reverse

/-- Session options; Debug and LogFunc only affect logging and are
omitted. -/
structure Options where
  maxFiles : Nat
  deriving Repr, DecidableEq

/-- The dispatcher-owned session state: the handle table and the
monotone handle counter. -/
structure SessionState where
  files : List (List Nat × FileModel)
  fcounter : Nat

/-- The initial state of Serve: empty table, counter zero. -/
def initialState : SessionState := ⟨[], 0⟩

/-- Lookup in the handle table (the Go map indexed by handle id). -/
def lookupHandle (files : List (List Nat × FileModel)) (h : List Nat) : Option FileModel :=
  match files with
  | [] => none
  | (k, f) :: rest => if k = h then some f else lookupHandle rest h

/-- Deletion from the handle table (the Go delete on the map). -/
def removeHandle (files : List (List Nat × FileModel)) (h : List Nat) :
    List (List Nat × FileModel) :=
  match files with
  | [] => []
  | (k, f) :: rest => if k = h then removeHandle rest h else (k, f) :: removeHandle rest h

/-- What one dispatcher iteration produces: the new state, the
responses posted to the outbox, the backend calls made synchronously,
the requests forwarded to per-handle queues, and whether the
dispatcher returned (the default branch of its switch), which fires
the session-wide shutdown. -/
structure StepResult where
  state : SessionState
  responses : List OutPacket
  calls : List BCall
  enqueues : List (List Nat × Protosftp.Request)
  terminated : Bool

/-- newFileHandle, the id allocation part: the decimal string of the
counter, which is then incremented. -/
def newFileHandle (s : SessionState) : List Nat × SessionState :=
  (decimalBytes s.fcounter, { s with fcounter := s.fcounter + 1 })

/-- handleInit: reply FXP_VERSION with protocol version 3 and no
extensions. -/
def handleInit (s : SessionState) : StepResult :=
  ⟨s, [.version 3 []], [], [], false⟩

/-- handleRealPath: force a leading slash, clean lexically, reply one
NAME entry with empty attributes.  cleanF abstracts the Go standard
library path.Clean (external to this repository; no claim depends on
its output). -/
def handleRealPath (cleanF : List Nat → List Nat) (s : SessionState)
    (id : Nat) (p : List Nat) : StepResult :=
  let p := match p with
    | 47 :: _ => p
    | _ => 47 :: p
  let p := cleanF p
  ⟨s, [.nameP id [(p, p, emptyFileStat)]], [], [], false⟩

/-- handleRemove: stat the target; a directory is refused with the
unsupported sentinel and remove is not called; otherwise remove. -/
def handleRemove (fs : VFSModel) (s : SessionState) (id : Nat) (filename : List Nat) :
    StepResult :=
  match fs.statOp filename with
  | (.error e, cs) => ⟨s, [respondError id e], cs, [], false⟩
  | (.ok st, cs) =>
    if st.isDir then ⟨s, [respondError id .unsupported], cs, [], false⟩
    else
      match fs.removeOp filename with
      | (.error e, cs2) => ⟨s, [respondError id e], cs ++ cs2, [], false⟩
      | (.ok _, cs2) => ⟨s, [respondOk id], cs ++ cs2, [], false⟩

/-- handleRmdir: stat the target; a non-directory is refused with the
unsupported sentinel and remove is not called; otherwise remove. -/
def handleRmdir (fs : VFSModel) (s : SessionState) (id : Nat) (p : List Nat) :
    StepResult :=
  match fs.statOp p with
  | (.error e, cs) => ⟨s, [respondError id e], cs, [], false⟩
  | (.ok st, cs) =>
    if !st.isDir then ⟨s, [respondError id .unsupported], cs, [], false⟩
    else
      match fs.removeOp p with
      | (.error e, cs2) => ⟨s, [respondError id e], cs ++ cs2, [], false⟩
      | (.ok _, cs2) => ⟨s, [respondOk id], cs ++ cs2, [], false⟩

/-- The common shape of handleFstat, handleReadDir, handleWrite and
handleRead: look the handle up; missing handles get the
invalid-handle status, found handles have the request forwarded to
their FIFO queue. -/
def forwardToHandle (s : SessionState) (id : Nat) (h : List Nat)
    (req : Protosftp.Request) : StepResult :=
  match lookupHandle s.files h with
  | none => ⟨s, [respondError id .invalidHandle], [], [], false⟩
  | some _ => ⟨s, [], [], [(h, req)], false⟩

/-- handleClose: look the handle up; missing handles get the
invalid-handle status; otherwise the entry is removed from the table
before the close is forwarded to the worker. -/
def handleClose (s : SessionState) (id : Nat) (h : List Nat)
    (req : Protosftp.Request) : StepResult :=
  match lookupHandle s.files h with
  | none => ⟨s, [respondError id .invalidHandle], [], [], false⟩
  | some _ => ⟨{ s with files := removeHandle s.files h }, [], [], [(h, req)], false⟩

/-- handleStat and handleLstat: stat on the VFS, reply ATTRS. -/
def handleStat (fs : VFSModel) (s : SessionState) (id : Nat) (p : List Nat) :
    StepResult :=
  match fs.statOp p with
  | (.error e, cs) => ⟨s, [respondError id e], cs, [], false⟩
  | (.ok st, cs) => ⟨s, [.attrsP id (fileStatToSFTPStat st)], cs, [], false⟩

/-- handleSetStat: chmod when the PERMISSIONS bit is set; the SIZE and
ACMODTIME bits are refused with the unsupported sentinel. -/
def handleSetStat (fs : VFSModel) (s : SessionState) (id : Nat) (p : List Nat)
    (attrs : FileStat) : StepResult :=
  let (chmodFailed, cs) :=
    if attrs.flags &&& FILEXFER_ATTR_PERMISSIONS ≠ 0 then
      match fs.chmodOp p attrs.mode with
      | (.error e, cs) => (some e, cs)
      | (.ok _, cs) => (none, cs)
    else (none, [])
  match chmodFailed with
  | some e => ⟨s, [respondError id e], cs, [], false⟩
  | none =>
    if attrs.flags &&& FILEXFER_ATTR_SIZE ≠ 0 then
      ⟨s, [respondError id .unsupported], cs, [], false⟩
    else if attrs.flags &&& FILEXFER_ATTR_ACMODTIME ≠ 0 then
      ⟨s, [respondError id .unsupported], cs, [], false⟩
    else ⟨s, [respondOk id], cs, [], false⟩

/-- Clearing recognized bits from pflags: the Go code masks with the
uint32 complement. -/
def clearBits (p mask : Nat) : Nat := p &&& (4294967295 ^^^ mask)

/-- The pflags-to-os-flags translation of handleOpen: each recognized
bit is folded into the os flags and cleared; the result is the os
flags and the remaining unrecognized pflag bits. -/
def translatePflags (pflags : Nat) : Nat × Nat :=
  let (flags, p) :=
    if pflags &&& FXF_READ ≠ 0 ∧ pflags &&& FXF_WRITE ≠ 0 then
      (O_RDWR, clearBits pflags (FXF_READ ||| FXF_WRITE))
    else if pflags &&& FXF_READ ≠ 0 then (O_RDONLY, clearBits pflags FXF_READ)
    else if pflags &&& FXF_WRITE ≠ 0 then (O_WRONLY, clearBits pflags FXF_WRITE)
    else (0, pflags)
  let (flags, p) :=
    if p &&& FXF_TRUNC ≠ 0 then (flags ||| O_TRUNC, clearBits p FXF_TRUNC) else (flags, p)
  let (flags, p) :=
    if p &&& FXF_CREAT ≠ 0 then (flags ||| O_CREATE, clearBits p FXF_CREAT) else (flags, p)
  let (flags, p) :=
    if p &&& FXF_APPEND ≠ 0 then (flags ||| O_APPEND, clearBits p FXF_APPEND) else (flags, p)
  let (flags, p) :=
    if p &&& FXF_EXCL ≠ 0 then (flags ||| O_EXCL, clearBits p FXF_EXCL) else (flags, p)
  (flags, p)

/-- handleOpen: admission check against MaxFiles, translation of the
client pflags to os open flags (with leftover bits refused as
unsupported), mode from the PERMISSIONS attribute or 0755, then the
backend OpenFile, a fresh handle and an FXP_HANDLE reply. -/
def handleOpen (opts : Options) (fs : VFSModel) (s : SessionState) (id : Nat)
    (path : List Nat) (pflags : Nat) (attrs : FileStat) : StepResult :=
  if s.files.length > opts.maxFiles then
    ⟨s, [respondError id .tooManyOpenFiles], [], [], false⟩
  else
    let (flags, p) := translatePflags pflags
    if p ≠ 0 then ⟨s, [respondError id .unsupported], [], [], false⟩
    else
      let mode :=
        if attrs.flags &&& FILEXFER_ATTR_PERMISSIONS ≠ 0 then attrs.mode &&& 0o777 else 0o755
      match fs.openFileOp path flags mode with
      | (.error e, cs) => ⟨s, [respondError id e], cs, [], false⟩
      | (.ok f, cs) =>
        let (hid, s) := newFileHandle s
        ⟨{ s with files := (hid, f) :: s.files }, [.handleP id hid], cs, [], false⟩

/-- handleOpenDir: admission check, backend Open, a fresh handle and
an FXP_HANDLE reply. -/
def handleOpenDir (opts : Options) (fs : VFSModel) (s : SessionState) (id : Nat)
    (path : List Nat) : StepResult :=
  if s.files.length > opts.maxFiles then
    ⟨s, [respondError id .tooManyOpenFiles], [], [], false⟩
  else
    match fs.openOp path with
    | (.error e, cs) => ⟨s, [respondError id e], cs, [], false⟩
    | (.ok f, cs) =>
      let (hid, s) := newFileHandle s
      ⟨{ s with files := (hid, f) :: s.files }, [.handleP id hid], cs, [], false⟩

/-- handleMkdir: mode from the PERMISSIONS attribute or 0755, backend
Mkdir. -/
def handleMkdir (fs : VFSModel) (s : SessionState) (id : Nat) (p : List Nat)
    (attrs : FileStat) : StepResult :=
  let mode :=
    if attrs.flags &&& FILEXFER_ATTR_PERMISSIONS ≠ 0 then attrs.mode &&& 0o777 else 0o755
  match fs.mkdirOp p mode with
  | (.error e, cs) => ⟨s, [respondError id e], cs, [], false⟩
  | (.ok _, cs) => ⟨s, [respondOk id], cs, [], false⟩

/-- handleRename: backend Rename. -/
def handleRename (fs : VFSModel) (s : SessionState) (id : Nat) (a b : List Nat) :
    StepResult :=
  match fs.renameOp a b with
  | (.error e, cs) => ⟨s, [respondError id e], cs, [], false⟩
  | (.ok _, cs) => ⟨s, [respondOk id], cs, [], false⟩

/-- One iteration of the dispatcher switch in Serve.  Every decoded
request type has its case except FxpFSetStatPacket, which — exactly as
in the source — falls to the default branch: the dispatcher logs
"unimplemented request" and returns, which fires shutdown; no
response is produced. -/
def dispatchStep (opts : Options) (fs : VFSModel) (cleanF : List Nat → List Nat)
    (s : SessionState) (req : Protosftp.Request) : StepResult :=
  match req with
  | .close id h => handleClose s id h req
  | .fstat id h => forwardToHandle s id h req
  | .init _ _ => handleInit s
  | .lstat id p => handleStat fs s id p
  | .mkdir id p attrs => handleMkdir fs s id p attrs
  | .opendir id p => handleOpenDir opts fs s id p
  | .openR id p pflags attrs => handleOpen opts fs s id p pflags attrs
  | .readdir id h => forwardToHandle s id h req
  | .readlink id _ => ⟨s, [respondError id .unsupported], [], [], false⟩
  | .readR id h _ _ => forwardToHandle s id h req
  | .realpath id p => handleRealPath cleanF s id p
  | .removeR id fn => handleRemove fs s id fn
  | .rename id a b => handleRename fs s id a b
  | .rmdir id p => handleRmdir fs s id p
  | .setstat id p attrs => handleSetStat fs s id p attrs
  | .statR id p => handleStat fs s id p
  | .symlink id _ _ => ⟨s, [respondError id .unsupported], [], [], false⟩
  | .writeR id h _ _ => forwardToHandle s id h req
  | .fsetstat _ _ _ => ⟨s, [], [], [], true⟩

/-- The accumulated outcome of a dispatcher run. -/
structure RunResult where
  state : SessionState
  responses : List OutPacket
  calls : List BCall
  enqueues : List (List Nat × Protosftp.Request)
  terminated : Bool

/-- The dispatcher loop: requests from the inbox are processed in
order until the list ends or a step returns (shutdown), after which
no further request is processed. -/
def runDispatch (opts : Options) (fs : VFSModel) (cleanF : List Nat → List Nat) :
    SessionState → List Protosftp.Request → RunResult
  | s, [] => ⟨s, [], [], [], false⟩
  | s, r :: rest =>
    let st := dispatchStep opts fs cleanF s r
    if st.terminated then ⟨st.state, st.responses, st.calls, st.enqueues, true⟩
    else
      let rr := runDispatch opts fs cleanF st.state rest
      ⟨rr.state, st.responses ++ rr.responses, st.calls ++ rr.calls,
        st.enqueues ++ rr.enqueues, rr.terminated⟩

/-- The per-handle worker goroutine of newFileHandle: it drains its
FIFO queue in order; FSTAT, WRITE, READ and READDIR are served against
the captured file, CLOSE closes the file and stops the worker, and any
other request is only logged.  The READ case allocates a buffer of
exactly the requested length (refusing lengths over 1 MiB with the
bad-read sentinel before calling the backend); a read that moved bytes
is answered with DATA carrying exactly those bytes even when the
backend also returned an error; a zero-byte read with an error is
answered with the mapped status.  lsF abstracts the runLsStat
long-name formatter (it reads the wall clock; no claim depends on its
output). -/
def workerRun (lsF : FileInfo → List Nat) (f : FileModel) :
    List Protosftp.Request → List OutPacket × List BCall
  | [] => ([], [])
  | req :: rest =>
    match req with
    | .fstat id _ =>
      let (r, cs) := f.statOp
      let out := match r with
        | .error e => respondError id e
        | .ok st => .attrsP id (fileStatToSFTPStat st)
      let (outs, calls) := workerRun lsF f rest
      (out :: outs, cs ++ calls)
    | .writeR id _ off data =>
      let (r, cs) := f.writeAtOp data off
      let out := match r with
        | .error e => respondError id e
        | .ok _ => respondOk id
      let (outs, calls) := workerRun lsF f rest
      (out :: outs, cs ++ calls)
    | .readR id _ off len =>
      if len > 1048576 then
        let (outs, calls) := workerRun lsF f rest
        (respondError id .badRead :: outs, calls)
      else
        let ((bs, err), cs) := f.readAtOp len off
        let out := match err with
          | some e => if bs.length = 0 then respondError id e else .dataP id bs.length bs
          | none => .dataP id bs.length bs
        let (outs, calls) := workerRun lsF f rest
        (out :: outs, cs ++ calls)
    | .readdir id _ =>
      let (r, cs) := f.readdirOp 64
      let out := match r with
        | .error e => respondError id e
        | .ok stats =>
          .nameP id (stats.map fun st => (st.name, lsF st, fileStatToSFTPStat st))
      let (outs, calls) := workerRun lsF f rest
      (out :: outs, cs ++ calls)
    | .close id _ =>
      let (r, cs) := f.closeOp
      match r with
      | .error e => ([respondError id e], cs)
      | .ok _ => ([respondOk id], cs)
    | _ => workerRun lsF f rest

/-- The requests the dispatcher forwarded to the queue of handle h, in
dispatch order. -/
def enqueuedFor (enqs : List (List Nat × Protosftp.Request)) (h : List Nat) :
    List Protosftp.Request :=
  enqs.filterMap fun e => if e.1 = h then some e.2 else none

/-- The handle ids issued in a response sequence (the FXP_HANDLE
packets, in order). -/
def issuedIds (outs : List OutPacket) : List (List Nat) :=
  outs.filterMap fun o => match o with
    | .handleP _ h => some h
    | _ => none

/-- Close detection, for the worker stop condition. -/
def isClose : Protosftp.Request → Bool
  | .close _ _ => true
  | _ => false

/-- The backend call a WRITE request gives rise to. -/
def asWrite : Protosftp.Request → Option BCall
  | .writeR _ _ off data => some (.writeAt data off)
  | _ => none

/-- The WriteAt entries of a backend call trace, in order. -/
def writeCalls (cs : List BCall) : List BCall :=
  cs.filter fun c => match c with
    | .writeAt _ _ => true
    | _ => false

/-- A concrete FileInfo of a regular file, for witnesses. -/
def okFileInfo : FileInfo := ⟨[97], 11, 0o644, 1577934245, false⟩

/-- A concrete backend file on which every operation succeeds. -/
def okFileRes : FileResults :=
  ⟨[97], .ok okFileInfo, fun _ => ([], none), fun _ _ => ([], none),
    fun _ _ => .ok 0, fun _ => .ok [], fun _ => .ok (), .ok ()⟩

/-- A concrete backend VFS on which every operation succeeds. -/
def okFs : FsResults :=
  ⟨fun _ _ => .ok (), fun _ => .ok okFileRes, fun _ _ _ => .ok okFileRes,
    fun _ _ => .ok (), fun _ => .ok okFileInfo, fun _ _ => .ok (), fun _ => .ok ()⟩

end Sftp

open Protosftp Sftp

/-- C1: the claim states that decoding the bytes produced by encoding
a FileStat agrees with it on every flagged field and consumes exactly
the encoded bytes.  The code violates this: marshalFileStat writes the
size under FILEXFER_ATTR_SIZE but unmarshalFileStatSafe has no branch
for that flag, so for a = {flags = SIZE, size = 1} the encoder emits
the flags word plus eight size bytes while the decoder returns size 0
and leaves all eight bytes unconsumed (and would misparse them as
later fields when more flags are set).  Every other flagged group
round-trips, which marks the missing branch as a slip in the decoder
rather than intent. -/
theorem c1_size_field_not_decoded :
    marshalFileStat [] { emptyFileStat with flags := FILEXFER_ATTR_SIZE, size := 1 } =
      [0, 0, 0, 1, 0, 0, 0, 0, 0, 0, 0, 1] ∧
    unmarshalFileStatSafe [0, 0, 0, 1, 0, 0, 0, 0, 0, 0, 0, 1] =
      .ok ({ emptyFileStat with flags := FILEXFER_ATTR_SIZE },
        [0, 0, 0, 0, 0, 0, 0, 1]) ∧
    ({ emptyFileStat with flags := FILEXFER_ATTR_SIZE } : FileStat).size = 0 := by
  refine ⟨rfl, rfl, rfl⟩

/-- C2: the claim states that FSETSTAT is looked up in the handle
table and answered (with an invalid-handle status when absent).  The
code violates this: ReadPacket decodes FXP_FSETSTAT into a request,
but the dispatcher switch in Serve has no FxpFSetStatPacket case, so
the request falls to the default branch, which logs and returns —
firing the session shutdown — and no response packet is ever sent,
even when the handle exists.  This theorem evaluates the code at the
failing input: a well-formed FSETSTAT frame for the live handle "0"
decodes successfully, yet dispatching it yields no response and
terminates the session. -/
theorem c2_fsetstat_terminates_session :
    ReadPacket [0, 0, 0, 14, 10, 0, 0, 0, 1, 0, 0, 0, 1, 48, 0, 0, 0, 0] =
      .ok (.fsetstat 1 [48] emptyFileStat, []) ∧
    (dispatchStep ⟨64⟩ (traceVFS okFs) id ⟨[([48], traceFile okFileRes)], 1⟩
        (.fsetstat 1 [48] emptyFileStat)).responses = [] ∧
    (dispatchStep ⟨64⟩ (traceVFS okFs) id ⟨[([48], traceFile okFileRes)], 1⟩
        (.fsetstat 1 [48] emptyFileStat)).terminated = true := by
  refine ⟨rfl, rfl, rfl⟩

/-- C10: respondError maps every error other than io.EOF,
os.ErrNotExist, a permission error and the unsupported-operation
sentinel — in particular the bad-read, invalid-handle and
too-many-open-files sentinels and every other backend error — to a
status with code FX_FAILURE whose message is the literal string
"error", not the message of the error itself. -/
theorem c10_default_status_is_failure_error (id : Nat) (e : VfsError)
    (h1 : e ≠ .eof) (h2 : e ≠ .notExist) (h3 : e ≠ .permission)
    (h4 : e ≠ .unsupported) :
    respondError id e = .status id FX_FAILURE "error" "" := by
  cases e <;> simp_all [respondError, MakeStatus]

/-- Witness for C10 at the bad-read sentinel. -/
theorem c10_witness :
    respondError 7 .badRead = .status 7 FX_FAILURE "error" "" :=
  c10_default_status_is_failure_error 7 .badRead
    (by decide) (by decide) (by decide) (by decide)

/-- Every respondError result is a status packet, never an FXP_HANDLE
packet. -/
theorem respondError_ne_handleP (id : Nat) (e : VfsError) (id2 : Nat) (h : List Nat) :
    respondError id e ≠ .handleP id2 h := by
  cases e <;> simp [respondError, MakeStatus]

/-- C3 counterexample: with max_files = 1, a session state reached by
one successful open (M = 1 opens, no closes) lets the next OPEN in: the
run answers both opens with FXP_HANDLE packets and calls the backend
OpenFile twice.  The claim says the second open of this run must be
answered with FX_FAILURE and must not reach the backend; the
admission check in the code is `len(files) > MaxFiles`, so rejection
begins only at the (M+2)-th concurrent open. -/
theorem c3_counterexample :
    (runDispatch ⟨1⟩ (traceVFS okFs) id initialState
        [.openR 1 [47, 97] 1 emptyFileStat, .openR 2 [47, 98] 1 emptyFileStat]).responses =
      [.handleP 1 [48], .handleP 2 [49]] ∧
    (runDispatch ⟨1⟩ (traceVFS okFs) id initialState
        [.openR 1 [47, 97] 1 emptyFileStat, .openR 2 [47, 98] 1 emptyFileStat]).calls =
      [.openFile [47, 97] 0 493, .openFile [47, 98] 0 493] ∧
    (runDispatch ⟨1⟩ (traceVFS okFs) id initialState
        [.openR 1 [47, 97] 1 emptyFileStat,
          .openR 2 [47, 98] 1 emptyFileStat]).state.files.length = 2 := by
  refine ⟨rfl, rfl, rfl⟩

/-- C3 amended: an OPEN or OPENDIR that arrives when the handle table
holds more than max_files entries (the (M+2)-th concurrent open) is
answered with the FX_FAILURE status the too-many-open-files sentinel
maps to (message "error"), with no backend call; and whenever an open
is let through (answered with FXP_HANDLE), the table held at most
max_files entries and grows by exactly one, so it never exceeds
max_files + 1. -/
theorem c3_admission_off_by_one (opts : Options) (fs : VFSModel) (s : SessionState)
    (id : Nat) (p : List Nat) (pflags : Nat) (attrs : FileStat) :
    (s.files.length > opts.maxFiles →
      handleOpen opts fs s id p pflags attrs =
        ⟨s, [.status id FX_FAILURE "error" ""], [], [], false⟩ ∧
      handleOpenDir opts fs s id p =
        ⟨s, [.status id FX_FAILURE "error" ""], [], [], false⟩) ∧
    (∀ hid, (handleOpen opts fs s id p pflags attrs).responses = [.handleP id hid] →
      s.files.length ≤ opts.maxFiles ∧
      (handleOpen opts fs s id p pflags attrs).state.files.length = s.files.length + 1) ∧
    (∀ hid, (handleOpenDir opts fs s id p).responses = [.handleP id hid] →
      s.files.length ≤ opts.maxFiles ∧
      (handleOpenDir opts fs s id p).state.files.length = s.files.length + 1) := by
  refine ⟨fun hgt => ⟨?_, ?_⟩, fun hid hresp => ?_, fun hid hresp => ?_⟩
  · unfold handleOpen
    rw [if_pos hgt]
    rfl
  · unfold handleOpenDir
    rw [if_pos hgt]
    rfl
  · by_cases hgt : s.files.length > opts.maxFiles
    · exfalso
      unfold handleOpen at hresp
      rw [if_pos hgt] at hresp
      simp [respondError, MakeStatus] at hresp
    · refine ⟨by omega, ?_⟩
      simp only [handleOpen, if_neg hgt] at hresp ⊢
      cases htp : translatePflags pflags with
      | mk flags pr =>
        rw [htp] at hresp
        dsimp only at hresp ⊢
        by_cases hp : pr ≠ 0
        · rw [if_pos hp] at hresp
          simp [respondError, MakeStatus] at hresp
        · rw [if_neg hp] at hresp ⊢
          cases hof : fs.openFileOp p flags
              (if attrs.flags &&& FILEXFER_ATTR_PERMISSIONS ≠ 0 then
                attrs.mode &&& 0o777 else 0o755) with
          | mk r cs =>
            rw [hof] at hresp
            cases r with
            | error e =>
              exfalso
              dsimp only at hresp
              apply respondError_ne_handleP id e id hid
              injection hresp with h1 h2
            | ok f => simp [newFileHandle]
  · by_cases hgt : s.files.length > opts.maxFiles
    · exfalso
      unfold handleOpenDir at hresp
      rw [if_pos hgt] at hresp
      simp [respondError, MakeStatus] at hresp
    · refine ⟨by omega, ?_⟩
      simp only [handleOpenDir, if_neg hgt] at hresp ⊢
      cases hof : fs.openOp p with
      | mk r cs =>
        rw [hof] at hresp
        cases r with
        | error e =>
          exfalso
          dsimp only at hresp
          apply respondError_ne_handleP id e id hid
          injection hresp with h1 h2
        | ok f => simp [newFileHandle]

/-- Any flag word with a write, create, truncate or append bit set is
classified as a write attempt by the read-only wrapper. -/
theorem writeAttempt_true_of_mask (flag : Nat)
    (h : flag &&& (O_WRONLY ||| O_RDWR ||| O_CREATE ||| O_TRUNC ||| O_APPEND) ≠ 0) :
    writeAttempt flag = true := by
  by_cases h1 : flag &&& O_WRONLY = 0
  · by_cases h2 : flag &&& O_RDWR = 0
    · by_cases h4 : flag &&& (O_CREATE ||| O_TRUNC ||| O_APPEND) = 0
      · exfalso
        apply h
        have hm : (O_WRONLY ||| O_RDWR ||| O_CREATE ||| O_TRUNC ||| O_APPEND : Nat) =
            O_WRONLY ||| (O_RDWR ||| (O_CREATE ||| O_TRUNC ||| O_APPEND)) := by decide
        rw [hm, Nat.and_or_distrib_left, Nat.and_or_distrib_left, h1, h2, h4]
        decide
      · have h3 : flag &&& 3 = 0 := by
          have hm : (3 : Nat) = O_WRONLY ||| O_RDWR := by decide
          rw [hm, Nat.and_or_distrib_left, h1, h2]
          decide
        simp [writeAttempt, h1, h2, h3, h4, O_RDONLY]
    · simp [writeAttempt, h1, h2]
  · simp [writeAttempt, h1]

/-- C4: the read-only wrapper rejects every mutating call — VFS chmod,
mkdir, remove, rename and file write_at and chmod — with the
permission-denied error and an empty wrapped-call trace, and rejects
any open_file whose flags carry a write, create, truncate or append
bit the same way; stat, open, and file read, read_at, readdir, stat
and close pass straight through to the wrapped backend.  At the
session level, an accepted OPEN with pflags FXF_WRITE|FXF_CREAT on a
read-only VFS is answered with FX_PERMISSION_DENIED and the backend
open_file is never invoked (the call trace is empty). -/
theorem c4_read_only_policy (fs : VFSModel) (f : FileModel) (p q : List Nat)
    (m flag perm : Nat) (data : List Nat) (off : Nat)
    (opts : Options) (s : SessionState) (id : Nat) (attrs : FileStat)
    (hadm : s.files.length ≤ opts.maxFiles) :
    (ReadOnlyVFS fs).chmodOp p m = (.error .permission, []) ∧
    (ReadOnlyVFS fs).mkdirOp p m = (.error .permission, []) ∧
    (ReadOnlyVFS fs).removeOp p = (.error .permission, []) ∧
    (ReadOnlyVFS fs).renameOp p q = (.error .permission, []) ∧
    (ReadOnlyFile f).writeAtOp data off = (.error .permission, []) ∧
    (ReadOnlyFile f).chmodOp m = (.error .permission, []) ∧
    (flag &&& (O_WRONLY ||| O_RDWR ||| O_CREATE ||| O_TRUNC ||| O_APPEND) ≠ 0 →
      (ReadOnlyVFS fs).openFileOp p flag perm = (.error .permission, [])) ∧
    ((ReadOnlyVFS fs).statOp = fs.statOp ∧
      ((ReadOnlyVFS fs).openOp p).2 = (fs.openOp p).2 ∧
      (ReadOnlyFile f).readOp = f.readOp ∧
      (ReadOnlyFile f).readAtOp = f.readAtOp ∧
      (ReadOnlyFile f).readdirOp = f.readdirOp ∧
      (ReadOnlyFile f).statOp = f.statOp ∧
      (ReadOnlyFile f).closeOp = f.closeOp) ∧
    handleOpen opts (ReadOnlyVFS fs) s id p (FXF_WRITE ||| FXF_CREAT) attrs =
      ⟨s, [.status id FX_PERMISSION_DENIED "permission denied" ""], [], [], false⟩ := by
  refine ⟨rfl, rfl, rfl, rfl, rfl, rfl, fun hw => ?_, ⟨rfl, ?_, rfl, rfl, rfl, rfl, rfl⟩, ?_⟩
  · simp only [ReadOnlyVFS, writeAttempt_true_of_mask flag hw, if_true]
  · cases hop : fs.openOp p with
    | mk r cs => cases r <;> simp [ReadOnlyVFS, hop]
  · unfold handleOpen
    rw [if_neg (by omega)]
    rfl

/-- Witness for C4: a concrete write-mode open_file on the wrapped
backend and the concrete session scenario, both denied. -/
theorem c4_witness :
    (ReadOnlyVFS (traceVFS okFs)).openFileOp [47, 120] (O_WRONLY ||| O_CREATE) 420 =
      (.error .permission, []) ∧
    handleOpen ⟨64⟩ (ReadOnlyVFS (traceVFS okFs)) initialState 9 [47, 120]
        (FXF_WRITE ||| FXF_CREAT) emptyFileStat =
      ⟨initialState, [.status 9 FX_PERMISSION_DENIED "permission denied" ""],
        [], [], false⟩ := by
  obtain ⟨-, -, -, -, -, -, hof, -, hopen⟩ :=
    c4_read_only_policy (traceVFS okFs) (traceFile okFileRes) [47, 120] []
      420 (O_WRONLY ||| O_CREATE) 420 [] 0 ⟨64⟩ initialState 9 emptyFileStat
      (by decide)
  exact ⟨hof (by decide), hopen⟩

/-- Witness for C3: with max_files = 0 and a table already holding one
entry (reached after the off-by-one accepted an open), the next open
is rejected with FX_FAILURE and message "error". -/
theorem c3_witness :
    handleOpen ⟨0⟩ (traceVFS okFs) ⟨[([48], traceFile okFileRes)], 1⟩ 5
        [47, 97] 1 emptyFileStat =
      ⟨⟨[([48], traceFile okFileRes)], 1⟩, [.status 5 FX_FAILURE "error" ""],
        [], [], false⟩ :=
  ((c3_admission_off_by_one ⟨0⟩ (traceVFS okFs) ⟨[([48], traceFile okFileRes)], 1⟩
    5 [47, 97] 1 emptyFileStat).1 (by decide)).1

/-- C5: the READ path of the per-handle worker: a requested length
over 1 MiB is answered with the FX_FAILURE status the bad-read
sentinel maps to and read_at is never called; otherwise exactly one
read_at with a buffer of exactly the requested length is issued at the
given offset, a read that moved bytes is answered with an FXP_DATA
packet carrying exactly those bytes (even when the backend also
returned an error), and a zero-byte read with an error is answered
with the mapped status (EOF mapping to FX_EOF). -/
theorem c5_read_semantics (rf : FileResults) (lsF : FileInfo → List Nat)
    (id : Nat) (h : List Nat) (off len : Nat) :
    (len > 1048576 →
      workerRun lsF (traceFile rf) [.readR id h off len] =
        ([.status id FX_FAILURE "error" ""], [])) ∧
    (len ≤ 1048576 →
      (workerRun lsF (traceFile rf) [.readR id h off len]).2 = [.readAt len off] ∧
      ((rf.readAtR len off).1 ≠ [] →
        (workerRun lsF (traceFile rf) [.readR id h off len]).1 =
          [.dataP id (rf.readAtR len off).1.length (rf.readAtR len off).1]) ∧
      ((rf.readAtR len off).1 = [] → ∀ e, (rf.readAtR len off).2 = some e →
        (workerRun lsF (traceFile rf) [.readR id h off len]).1 =
          [respondError id e])) ∧
    (∀ i, respondError i .eof = .status i FX_EOF "EOF" "") := by
  refine ⟨fun hlen => ?_, fun hlen => ?_, fun i => rfl⟩
  · simp [workerRun, hlen, respondError, MakeStatus]
  · have hnot : ¬ len > 1048576 := by omega
    cases hra : rf.readAtR len off with
    | mk bs err =>
      refine ⟨?_, fun hbs => ?_, fun hbs e he => ?_⟩
      · simp [workerRun, hnot, traceFile, hra]
      · cases err with
        | some e =>
          have : bs.length ≠ 0 := fun h0 => hbs (List.length_eq_zero.mp h0)
          simp [workerRun, hnot, traceFile, hra, this]
        | none => simp [workerRun, hnot, traceFile, hra]
      · subst hbs
        cases he
        simp [workerRun, hnot, traceFile, hra]

/-- Witness for C5: an oversized READ is refused; a 5-byte read of
"Hello" is answered with the data. -/
theorem c5_witness :
    workerRun (fun _ => []) (traceFile okFileRes) [.readR 2 [48] 0 2000000] =
      ([.status 2 FX_FAILURE "error" ""], []) ∧
    (workerRun (fun _ => [])
        (traceFile { okFileRes with readAtR := fun _ _ => ([72, 101, 108, 108, 111], none) })
        [.readR 2 [48] 0 5]).1 = [.dataP 2 5 [72, 101, 108, 108, 111]] := by
  constructor
  · exact (c5_read_semantics okFileRes (fun _ => []) 2 [48] 0 2000000).1 (by omega)
  · exact (((c5_read_semantics
      { okFileRes with readAtR := fun _ _ => ([72, 101, 108, 108, 111], none) }
      (fun _ => []) 2 [48] 0 5).2.1 (by omega)).2.1 (by decide))

/-- C6: ReadPacket rejects every frame whose u32 length word is below
2 or above 1 MiB with a protocol error (the function is total, so it
never panics); frames with length in [2, 1 MiB] proceed to body
parsing by the leading tag byte; and any decode error makes the
reader loop stop at once, forwarding nothing, which fires the session
shutdown. -/
theorem c6_frame_length_bounds (b0 b1 b2 b3 : Nat) (rest : List Nat) :
    (b3 + b2 * 256 + b1 * 65536 + b0 * 16777216 > 1048576 →
      ReadPacket (b0 :: b1 :: b2 :: b3 :: rest) = .error "packet too large") ∧
    (b3 + b2 * 256 + b1 * 65536 + b0 * 16777216 ≤ 1 →
      ReadPacket (b0 :: b1 :: b2 :: b3 :: rest) = .error "packet too small") ∧
    (∀ l, l = b3 + b2 * 256 + b1 * 65536 + b0 * 16777216 → 2 ≤ l → l ≤ 1048576 →
      l ≤ rest.length →
      ReadPacket (b0 :: b1 :: b2 :: b3 :: rest) =
        match rest.take l with
        | [] => .error "packet too small"
        | tag :: rb =>
          match parsePacketBody tag rb with
          | .error e => .error e
          | .ok p => .ok (p, rest.drop l)) ∧
    (∀ input e, ReadPacket input = .error e → readerRun input = []) := by
  refine ⟨fun hbig => ?_, fun hsmall => ?_, fun l hl h2 h1m hrest => ?_, fun input e he => ?_⟩
  · unfold ReadPacket
    dsimp only
    rw [if_pos hbig]
  · unfold ReadPacket
    dsimp only
    rw [if_neg (by omega), if_pos hsmall]
  · subst hl
    unfold ReadPacket
    dsimp only
    rw [if_neg (by omega), if_neg (by omega), if_neg (by omega)]
  · rw [readerRun]
    split
    · rfl
    · next p rest2 hok =>
      rw [he] at hok
      exact absurd hok (by simp)

/-- Witness for C6: an oversized length word, an undersized one, a
well-formed REALPATH frame that parses, and an empty stream stopping
the reader. -/
theorem c6_witness :
    ReadPacket [0, 16, 0, 1] = .error "packet too large" ∧
    ReadPacket [0, 0, 0, 1, 16] = .error "packet too small" ∧
    ReadPacket [0, 0, 0, 10, 16, 0, 0, 0, 7, 0, 0, 0, 1, 47] =
      .ok (.realpath 7 [47], []) ∧
    readerRun [] = [] := by
  obtain ⟨hbig, -, -, hstop⟩ := c6_frame_length_bounds 0 16 0 1 []
  obtain ⟨-, hsmall, -, -⟩ := c6_frame_length_bounds 0 0 0 1 [16]
  obtain ⟨-, -, hbody, -⟩ :=
    c6_frame_length_bounds 0 0 0 10 [16, 0, 0, 0, 7, 0, 0, 0, 1, 47]
  refine ⟨hbig (by omega), hsmall (by omega), ?_, hstop [] "EOF" rfl⟩
  rw [hbody 10 (by decide) (by decide) (by decide) (by decide)]
  rfl

/-- The worker issues WriteAt calls exactly for the WRITE requests in
its queue strictly before the first CLOSE, in queue order. -/
theorem workerRun_writeCalls (lsF : FileInfo → List Nat) (rf : FileResults) :
    ∀ q, writeCalls (workerRun lsF (traceFile rf) q).2 =
      (q.takeWhile (fun r => !isClose r)).filterMap asWrite := by
  intro q
  induction q with
  | nil => rfl
  | cons r rest ih =>
    cases r with
    | readR id h off len =>
      by_cases hlen : len > 1048576
      · simp only [workerRun, traceFile, writeCalls, isClose, asWrite, hlen, List.takeWhile,
          List.filter_append, if_pos] at ih ⊢
        simpa using ih
      · cases hra : rf.readAtR len off with
        | mk bs err =>
          simp only [workerRun, traceFile, writeCalls, isClose, asWrite, List.takeWhile,
            List.filter_append] at ih ⊢
          simp only [hlen, hra]
          simpa using ih
    | close id h =>
      cases hcl : rf.closeR with
      | error e => simp [workerRun, traceFile, writeCalls, isClose, hcl, List.takeWhile]
      | ok u => simp [workerRun, traceFile, writeCalls, isClose, hcl, List.takeWhile]
    | _ =>
      simp only [workerRun, traceFile, writeCalls, isClose, asWrite, List.takeWhile,
        List.filter_append] at ih ⊢
      simpa [asWrite] using ih

/-- Every dispatcher step forwards either nothing or exactly the
request it is processing. -/
theorem dispatchStep_enqueues (opts : Options) (fs : VFSModel)
    (cleanF : List Nat → List Nat) (s : SessionState) (r : Protosftp.Request) :
    (dispatchStep opts fs cleanF s r).enqueues = [] ∨
    ∃ k, (dispatchStep opts fs cleanF s r).enqueues = [(k, r)] := by
  cases r <;>
    simp only [dispatchStep, handleInit, handleRealPath, handleStat, handleSetStat,
      handleRemove, handleRmdir, handleMkdir, handleRename, handleOpen, handleOpenDir,
      handleClose, forwardToHandle] <;>
    (repeat' split) <;>
    first
      | (left; trivial)
      | (right; exact ⟨_, rfl⟩)

/-- The per-step projection of the forwarded queue of one handle is a
sublist of the singleton wire arrival. -/
theorem enqueuedFor_step_sublist (opts : Options) (fs : VFSModel)
    (cleanF : List Nat → List Nat) (s : SessionState) (r : Protosftp.Request)
    (h : List Nat) :
    List.Sublist (enqueuedFor (dispatchStep opts fs cleanF s r).enqueues h) [r] := by
  rcases dispatchStep_enqueues opts fs cleanF s r with he | ⟨k, he⟩
  · rw [he]
    exact List.nil_sublist _
  · rw [he]
    unfold enqueuedFor
    by_cases hk : k = h
    · simp [hk]
    · simp [hk]

/-- The queue of each handle is an order-preserving selection of the
wire request sequence. -/
theorem runDispatch_enqueuedFor_sublist (opts : Options) (fs : VFSModel)
    (cleanF : List Nat → List Nat) :
    ∀ (reqs : List Protosftp.Request) (s : SessionState) (h : List Nat),
      List.Sublist (enqueuedFor (runDispatch opts fs cleanF s reqs).enqueues h) reqs := by
  intro reqs
  induction reqs with
  | nil =>
    intro s h
    exact List.nil_sublist _
  | cons r rest ih =>
    intro s h
    rw [runDispatch]
    dsimp only
    by_cases ht : (dispatchStep opts fs cleanF s r).terminated
    · rw [if_pos ht]
      exact (enqueuedFor_step_sublist opts fs cleanF s r h).trans
        ((List.nil_sublist rest).cons₂ r)
    · rw [if_neg ht]
      have hsplit : enqueuedFor ((dispatchStep opts fs cleanF s r).enqueues ++
          (runDispatch opts fs cleanF (dispatchStep opts fs cleanF s r).state rest).enqueues) h =
          enqueuedFor (dispatchStep opts fs cleanF s r).enqueues h ++
          enqueuedFor (runDispatch opts fs cleanF (dispatchStep opts fs cleanF s r).state
            rest).enqueues h := by
        unfold enqueuedFor
        exact List.filterMap_append _ _ _
      dsimp only
      rw [hsplit]
      exact List.Sublist.append (enqueuedFor_step_sublist opts fs cleanF s r h)
        (ih (dispatchStep opts fs cleanF s r).state h)

/-- C8: per-handle strict write FIFO.  For any wire request sequence,
the dispatcher forwards to each handle queue an order-preserving
selection of the wire sequence (a sublist), and the worker of that
handle issues its backend WriteAt calls exactly for the forwarded
WRITE requests before the queue close, in queue order; hence two
writes on one handle reach the backend in their wire arrival order,
and a later-arrived write can never overtake an earlier one. -/
theorem c8_per_handle_write_fifo (opts : Options) (fs : VFSModel)
    (cleanF : List Nat → List Nat) (s : SessionState)
    (reqs : List Protosftp.Request) (h : List Nat) (rf : FileResults)
    (lsF : FileInfo → List Nat) :
    writeCalls (workerRun lsF (traceFile rf)
        (enqueuedFor (runDispatch opts fs cleanF s reqs).enqueues h)).2 =
      ((enqueuedFor (runDispatch opts fs cleanF s reqs).enqueues h).takeWhile
        (fun r => !isClose r)).filterMap asWrite ∧
    List.Sublist (enqueuedFor (runDispatch opts fs cleanF s reqs).enqueues h) reqs :=
  ⟨workerRun_writeCalls lsF rf _, runDispatch_enqueuedFor_sublist opts fs cleanF reqs s h⟩

/-- Base-10 value of a little-endian digit list, the decoding inverse
used to prove the decimal representation injective. -/
def decVal : List Nat → Nat
  | [] => 0
  | d :: rest => d + 10 * decVal rest

/-- decDigitsAux is correct: its digits decode to the number. -/
theorem decVal_decDigitsAux : ∀ (fuel n : Nat), n ≤ fuel →
    decVal (decDigitsAux fuel n) = n := by
  intro fuel
  induction fuel with
  | zero =>
    intro n hn
    have h0 : n = 0 := by omega
    subst h0
    rfl
  | succ fuel ih =>
    intro n hn
    match n with
    | 0 => rfl
    | m + 1 =>
      have hdiv : (m + 1) / 10 ≤ fuel := by
        have := Nat.div_lt_self (Nat.succ_pos m) (by norm_num : 1 < 10)
        omega
      show decVal ((m + 1) % 10 :: decDigitsAux fuel ((m + 1) / 10)) = m + 1
      simp only [decVal]
      rw [ih _ hdiv]
      exact Nat.mod_add_div (m + 1) 10

/-- A decimal byte string equal to "0" can only come from zero. -/
theorem decimalBytes_eq_zero_str (n : Nat) (h : decimalBytes n = [48]) : n = 0 := by
  by_cases hn : n = 0
  · exact hn
  · exfalso
    unfold decimalBytes at h
    rw [if_neg hn] at h
    have h2 : (decDigitsAux n n).map (fun d => 48 + d) = [48] := by
      have := congrArg List.reverse h
      simpa using this
    have h3 : decDigitsAux n n = [0] := by
      cases hl : decDigitsAux n n with
      | nil => rw [hl] at h2; simp at h2
      | cons x xs =>
        cases xs with
        | nil =>
          rw [hl] at h2
          simp only [List.map_cons, List.map_nil, List.cons.injEq, and_true] at h2
          have hx : x = 0 := by omega
          rw [hx]
        | cons y ys => rw [hl] at h2; simp at h2
    have hv := decVal_decDigitsAux n n le_rfl
    rw [h3] at hv
    simp [decVal] at hv
    exact hn hv.symm

/-- The decimal byte representation is injective: distinct counter
values yield distinct handle id strings. -/
theorem decimalBytes_injective : Function.Injective decimalBytes := by
  intro m n hmn
  by_cases hm : m = 0 <;> by_cases hn : n = 0
  · omega
  · exfalso
    have : decimalBytes n = [48] := by
      rw [← hmn]
      simp [decimalBytes, hm]
    exact hn (decimalBytes_eq_zero_str n this)
  · exfalso
    have : decimalBytes m = [48] := by
      rw [hmn]
      simp [decimalBytes, hn]
    exact hm (decimalBytes_eq_zero_str m this)
  · unfold decimalBytes at hmn
    rw [if_neg hm, if_neg hn] at hmn
    have h2 : (decDigitsAux m m).map (fun d => 48 + d) =
        (decDigitsAux n n).map (fun d => 48 + d) := by
      have := congrArg List.reverse hmn
      simpa using this
    have h3 : decDigitsAux m m = decDigitsAux n n := by
      have hinj : Function.Injective (fun d : Nat => 48 + d) := fun a b hab =>
        Nat.add_left_cancel hab
      exact List.map_injective_iff.mpr hinj h2
    have hv1 := decVal_decDigitsAux m m le_rfl
    have hv2 := decVal_decDigitsAux n n le_rfl
    rw [← hv1, ← hv2, h3]

/-- issuedIds distributes over response concatenation. -/
theorem issuedIds_append (a b : List OutPacket) :
    issuedIds (a ++ b) = issuedIds a ++ issuedIds b :=
  List.filterMap_append a b _

/-- A status produced by respondError issues no handle id. -/
theorem issuedIds_respondError (id : Nat) (e : VfsError) :
    issuedIds [respondError id e] = [] := by
  cases e <;> rfl

/-- handleStat issues no handle id and keeps the counter. -/
theorem handleStat_issued (fs : VFSModel) (s : SessionState) (id : Nat) (p : List Nat) :
    issuedIds (handleStat fs s id p).responses = [] ∧
    (handleStat fs s id p).state.fcounter = s.fcounter := by
  unfold handleStat
  cases hst : fs.statOp p with
  | mk r cs =>
    cases r with
    | error e => exact ⟨issuedIds_respondError id e, rfl⟩
    | ok st => exact ⟨rfl, rfl⟩

/-- handleSetStat issues no handle id and keeps the counter. -/
theorem handleSetStat_issued (fs : VFSModel) (s : SessionState) (id : Nat)
    (p : List Nat) (attrs : FileStat) :
    issuedIds (handleSetStat fs s id p attrs).responses = [] ∧
    (handleSetStat fs s id p attrs).state.fcounter = s.fcounter := by
  unfold handleSetStat
  by_cases hperm : attrs.flags &&& FILEXFER_ATTR_PERMISSIONS ≠ 0
  · rw [if_pos hperm]
    refine ⟨?_, ?_⟩ <;> (repeat' split) <;>
      first
        | rfl
        | exact issuedIds_respondError _ _
  · rw [if_neg hperm]
    refine ⟨?_, ?_⟩ <;> (repeat' split) <;>
      first
        | rfl
        | exact issuedIds_respondError _ _

/-- handleRemove issues no handle id and keeps the counter. -/
theorem handleRemove_issued (fs : VFSModel) (s : SessionState) (id : Nat)
    (fn : List Nat) :
    issuedIds (handleRemove fs s id fn).responses = [] ∧
    (handleRemove fs s id fn).state.fcounter = s.fcounter := by
  unfold handleRemove
  cases hst : fs.statOp fn with
  | mk r cs =>
    cases r with
    | error e => exact ⟨issuedIds_respondError id e, rfl⟩
    | ok st =>
      by_cases hd : st.isDir = true
      · simp only [if_pos hd]
        refine ⟨?_, ?_⟩ <;> first | rfl | trivial
      · simp only [if_neg hd]
        cases hrm : fs.removeOp fn with
        | mk r2 cs2 =>
          cases r2 with
          | error e => exact ⟨issuedIds_respondError id e, rfl⟩
          | ok u => exact ⟨rfl, rfl⟩

/-- handleRmdir issues no handle id and keeps the counter. -/
theorem handleRmdir_issued (fs : VFSModel) (s : SessionState) (id : Nat)
    (p : List Nat) :
    issuedIds (handleRmdir fs s id p).responses = [] ∧
    (handleRmdir fs s id p).state.fcounter = s.fcounter := by
  unfold handleRmdir
  cases hst : fs.statOp p with
  | mk r cs =>
    cases r with
    | error e => exact ⟨issuedIds_respondError id e, rfl⟩
    | ok st =>
      by_cases hd : (!st.isDir) = true
      · simp only [if_pos hd]
        refine ⟨?_, ?_⟩ <;> first | rfl | trivial
      · simp only [if_neg hd]
        cases hrm : fs.removeOp p with
        | mk r2 cs2 =>
          cases r2 with
          | error e => exact ⟨issuedIds_respondError id e, rfl⟩
          | ok u => exact ⟨rfl, rfl⟩

/-- handleMkdir issues no handle id and keeps the counter. -/
theorem handleMkdir_issued (fs : VFSModel) (s : SessionState) (id : Nat)
    (p : List Nat) (attrs : FileStat) :
    issuedIds (handleMkdir fs s id p attrs).responses = [] ∧
    (handleMkdir fs s id p attrs).state.fcounter = s.fcounter := by
  unfold handleMkdir
  dsimp only
  cases hmk : fs.mkdirOp p
      (if attrs.flags &&& FILEXFER_ATTR_PERMISSIONS ≠ 0 then attrs.mode &&& 0o777
        else 0o755) with
  | mk r cs =>
    cases r with
    | error e => exact ⟨issuedIds_respondError id e, rfl⟩
    | ok u => exact ⟨rfl, rfl⟩

/-- handleRename issues no handle id and keeps the counter. -/
theorem handleRename_issued (fs : VFSModel) (s : SessionState) (id : Nat)
    (a b : List Nat) :
    issuedIds (handleRename fs s id a b).responses = [] ∧
    (handleRename fs s id a b).state.fcounter = s.fcounter := by
  unfold handleRename
  cases hrn : fs.renameOp a b with
  | mk r cs =>
    cases r with
    | error e => exact ⟨issuedIds_respondError id e, rfl⟩
    | ok u => exact ⟨rfl, rfl⟩

/-- forwardToHandle issues no handle id and keeps the counter. -/
theorem forwardToHandle_issued (s : SessionState) (id : Nat) (h : List Nat)
    (req : Protosftp.Request) :
    issuedIds (forwardToHandle s id h req).responses = [] ∧
    (forwardToHandle s id h req).state.fcounter = s.fcounter := by
  unfold forwardToHandle
  cases hl : lookupHandle s.files h with
  | none => exact ⟨by rfl, rfl⟩
  | some f => exact ⟨rfl, rfl⟩

/-- handleClose issues no handle id and keeps the counter. -/
theorem handleClose_issued (s : SessionState) (id : Nat) (h : List Nat)
    (req : Protosftp.Request) :
    issuedIds (handleClose s id h req).responses = [] ∧
    (handleClose s id h req).state.fcounter = s.fcounter := by
  unfold handleClose
  cases hl : lookupHandle s.files h with
  | none => exact ⟨by rfl, rfl⟩
  | some f => exact ⟨rfl, rfl⟩

/-- handleOpen issues either no handle id with the counter kept, or
exactly the decimal string of the counter with the counter bumped. -/
theorem handleOpen_issued (opts : Options) (fs : VFSModel) (s : SessionState)
    (id : Nat) (p : List Nat) (pf : Nat) (attrs : FileStat) :
    (issuedIds (handleOpen opts fs s id p pf attrs).responses = [] ∧
      (handleOpen opts fs s id p pf attrs).state.fcounter = s.fcounter) ∨
    (issuedIds (handleOpen opts fs s id p pf attrs).responses =
        [decimalBytes s.fcounter] ∧
      (handleOpen opts fs s id p pf attrs).state.fcounter = s.fcounter + 1) := by
  unfold handleOpen
  by_cases hgt : s.files.length > opts.maxFiles
  · rw [if_pos hgt]
    left
    exact ⟨rfl, rfl⟩
  · rw [if_neg hgt]
    cases htp : translatePflags pf with
    | mk flags pr =>
      dsimp only
      by_cases hp : pr ≠ 0
      · rw [if_pos hp]
        left
        exact ⟨rfl, rfl⟩
      · rw [if_neg hp]
        cases hof : fs.openFileOp p flags
            (if attrs.flags &&& FILEXFER_ATTR_PERMISSIONS ≠ 0 then
              attrs.mode &&& 0o777 else 0o755) with
        | mk r cs =>
          cases r with
          | error e =>
            left
            exact ⟨issuedIds_respondError id e, rfl⟩
          | ok f =>
            right
            exact ⟨rfl, rfl⟩

/-- handleOpenDir issues either no handle id with the counter kept,
or exactly the decimal string of the counter with the counter
bumped. -/
theorem handleOpenDir_issued (opts : Options) (fs : VFSModel) (s : SessionState)
    (id : Nat) (p : List Nat) :
    (issuedIds (handleOpenDir opts fs s id p).responses = [] ∧
      (handleOpenDir opts fs s id p).state.fcounter = s.fcounter) ∨
    (issuedIds (handleOpenDir opts fs s id p).responses = [decimalBytes s.fcounter] ∧
      (handleOpenDir opts fs s id p).state.fcounter = s.fcounter + 1) := by
  unfold handleOpenDir
  by_cases hgt : s.files.length > opts.maxFiles
  · rw [if_pos hgt]
    left
    exact ⟨rfl, rfl⟩
  · rw [if_neg hgt]
    cases hof : fs.openOp p with
    | mk r cs =>
      cases r with
      | error e =>
        left
        exact ⟨issuedIds_respondError id e, rfl⟩
      | ok f =>
        right
        exact ⟨rfl, rfl⟩

/-- Every dispatcher step either issues no handle id and keeps the
counter, or issues exactly the decimal string of the current counter
and increments it. -/
theorem dispatchStep_issued (opts : Options) (fs : VFSModel)
    (cleanF : List Nat → List Nat) (s : SessionState) (r : Protosftp.Request) :
    (issuedIds (dispatchStep opts fs cleanF s r).responses = [] ∧
      (dispatchStep opts fs cleanF s r).state.fcounter = s.fcounter) ∨
    (issuedIds (dispatchStep opts fs cleanF s r).responses =
        [decimalBytes s.fcounter] ∧
      (dispatchStep opts fs cleanF s r).state.fcounter = s.fcounter + 1) := by
  cases r with
  | init v e => exact Or.inl ⟨rfl, rfl⟩
  | realpath id p => exact Or.inl ⟨rfl, rfl⟩
  | readlink id p => exact Or.inl ⟨rfl, rfl⟩
  | symlink id a b => exact Or.inl ⟨rfl, rfl⟩
  | fsetstat id h attrs => exact Or.inl ⟨rfl, rfl⟩
  | statR id p => exact Or.inl (handleStat_issued fs s id p)
  | lstat id p => exact Or.inl (handleStat_issued fs s id p)
  | setstat id p attrs => exact Or.inl (handleSetStat_issued fs s id p attrs)
  | removeR id fn => exact Or.inl (handleRemove_issued fs s id fn)
  | rmdir id p => exact Or.inl (handleRmdir_issued fs s id p)
  | mkdir id p attrs => exact Or.inl (handleMkdir_issued fs s id p attrs)
  | rename id a b => exact Or.inl (handleRename_issued fs s id a b)
  | fstat id h => exact Or.inl (forwardToHandle_issued s id h _)
  | readdir id h => exact Or.inl (forwardToHandle_issued s id h _)
  | readR id h o l => exact Or.inl (forwardToHandle_issued s id h _)
  | writeR id h o d => exact Or.inl (forwardToHandle_issued s id h _)
  | close id h => exact Or.inl (handleClose_issued s id h _)
  | openR id p pf attrs => exact handleOpen_issued opts fs s id p pf attrs
  | opendir id p => exact handleOpenDir_issued opts fs s id p

/-- Over a whole dispatcher run the issued handle ids are exactly the
decimal strings of consecutive counter values starting at the current
counter. -/
theorem runDispatch_issued (opts : Options) (fs : VFSModel)
    (cleanF : List Nat → List Nat) :
    ∀ (reqs : List Protosftp.Request) (s : SessionState), ∃ k,
      issuedIds (runDispatch opts fs cleanF s reqs).responses =
        (List.range' s.fcounter k).map decimalBytes := by
  intro reqs
  induction reqs with
  | nil =>
    intro s
    exact ⟨0, rfl⟩
  | cons r rest ih =>
    intro s
    rw [runDispatch]
    dsimp only
    by_cases ht : (dispatchStep opts fs cleanF s r).terminated
    · rw [if_pos ht]
      rcases dispatchStep_issued opts fs cleanF s r with ⟨hi, hc⟩ | ⟨hi, hc⟩
      · exact ⟨0, hi⟩
      · exact ⟨1, hi⟩
    · rw [if_neg ht]
      obtain ⟨k, hk⟩ := ih (dispatchStep opts fs cleanF s r).state
      rcases dispatchStep_issued opts fs cleanF s r with ⟨hi, hc⟩ | ⟨hi, hc⟩
      · refine ⟨k, ?_⟩
        dsimp only
        rw [issuedIds_append, hi, hk, hc]
        rfl
      · refine ⟨k + 1, ?_⟩
        dsimp only
        rw [issuedIds_append, hi, hk, hc]
        rw [List.range'_succ]
        rfl

/-- C9: within one session every issued handle id is the decimal
string of a monotonically increasing counter: for any request
sequence, any backend and any start state, the issued ids are exactly
the decimal strings of consecutive counter values, and hence pairwise
distinct (Nodup) — so a closed handle id can never reappear as the id
of a subsequently opened handle. -/
theorem c9_handle_ids_distinct (opts : Options) (fs : VFSModel)
    (cleanF : List Nat → List Nat) (s : SessionState)
    (reqs : List Protosftp.Request) :
    (∃ k, issuedIds (runDispatch opts fs cleanF s reqs).responses =
      (List.range' s.fcounter k).map decimalBytes) ∧
    (issuedIds (runDispatch opts fs cleanF s reqs).responses).Nodup := by
  obtain ⟨k, hk⟩ := runDispatch_issued opts fs cleanF reqs s
  refine ⟨⟨k, hk⟩, ?_⟩
  rw [hk]
  exact (List.nodup_range' s.fcounter k).map decimalBytes_injective

/-- C7: handleRemove stats the target and, when it is a directory,
replies with the unsupported-operation status (FX_OP_UNSUPPORTED)
without calling the backend remove; handleRmdir does the same for a
non-directory; when the respective check passes, both call remove on
the backend with the given path (after the stat). -/
theorem c7_remove_rmdir_refuse_wrong_kind (fs : FsResults) (s : SessionState)
    (id : Nat) (p : List Nat) (st : FileInfo) (hstat : fs.statFs p = .ok st) :
    (st.isDir = true →
      handleRemove (traceVFS fs) s id p =
        ⟨s, [.status id FX_OP_UNSUPPORTED "unsupported operation" ""], [.statP p], [], false⟩) ∧
    (st.isDir = false →
      (handleRemove (traceVFS fs) s id p).calls = [.statP p, .remove p]) ∧
    (st.isDir = false →
      handleRmdir (traceVFS fs) s id p =
        ⟨s, [.status id FX_OP_UNSUPPORTED "unsupported operation" ""], [.statP p], [], false⟩) ∧
    (st.isDir = true →
      (handleRmdir (traceVFS fs) s id p).calls = [.statP p, .remove p]) := by
  refine ⟨fun hd => ?_, fun hd => ?_, fun hd => ?_, fun hd => ?_⟩ <;>
    simp only [handleRemove, handleRmdir, traceVFS, hstat, hd, if_true, if_false,
      Bool.not_true, Bool.not_false, respondError, MakeStatus] <;>
    cases hrem : fs.removeFs p <;> simp

/-- Witness for C7: a backend whose stat reports a directory at "/d"
and a regular file at other paths. -/
theorem c7_witness :
    (handleRemove (traceVFS { okFs with
        statFs := fun p => if p = [47, 100] then .ok { okFileInfo with isDir := true }
          else .ok okFileInfo }) initialState 3 [47, 100]).responses =
      [.status 3 FX_OP_UNSUPPORTED "unsupported operation" ""] := by
  rw [(c7_remove_rmdir_refuse_wrong_kind _ initialState 3 [47, 100]
    { okFileInfo with isDir := true } (by rfl)).1 (by rfl)]
